import Mathlib

/-!
Shallow embedding of the voxel-synthesis core of the `3d_conv` repository
(`3d_conv/datasets/geometric_3d_dataset.py` and `3d_conv/layers/layer_utils.py`),
together with theorems settling the specification claims about it.

Conventions of the embedding:
* a single-sample voxel grid (one `solid_figures[i, :, 0, :, :]` slab, indexed
  `(z, x, y)`) is a total function `Int → Int → Int → Bool`; the Python code
  only ever writes indices inside `[0, patch_size)`, so out-of-range lookups
  simply return the array's initial `False`;
* real-valued centers and radii are modelled with `ℚ` (the code holds them in
  Python floats, but every arithmetic operation used — `+`, `-`, `*`, `**2`,
  `abs`, `ceil`, `floor`, comparisons — is exact on the values the claims
  quantify over);
* the source is Python 2, where `/` on integers is floor division; all the
  divisors appearing in the code are positive literals (`2`), for which
  Python's floor division agrees with Lean's `Int` division (`Int.ediv`);
* a Python exception is modelled by `Option`/`none`.
-/

/-- Single-sample voxel grid in `(z, x, y)` index order (the `(depth, row,
column)` axes of the 5-D `BZCXY` array, channel fixed at 0). -/
abbrev Grid := Int → Int → Int → Bool

/-- Freshly allocated `np.zeros` slab: everything unoccupied. -/
def emptyGrid : Grid := fun _ _ _ => false

/-- Semantics of the single-element assignment `solid_figures[i, z, 0, x, y] = 1`. -/
def setVoxel (g : Grid) (z x y : Int) : Grid :=
  fun z' x' y' => if z' = z ∧ x' = x ∧ y' = y then true else g z' x' y'

/-- Semantics of Python 2's `xrange(lo, hi + 1)` as a list of `Int` (empty when
`hi < lo`). -/
def intRange (lo hi : Int) : List Int :=
  (List.range (hi + 1 - lo).toNat).map (fun (i : Nat) => lo + (i : Int))

/-- The `z`/`x`/`y` triple loop of `__generate_solid_figures` that sets each
voxel of the clipped bounding box whose coordinates satisfy `pred` (the sphere
or diamond containment test). -/
def genLoop (pred : Int → Int → Int → Bool)
    (zmin zmax xmin xmax ymin ymax : Int) (g0 : Grid) : Grid :=
  (intRange zmin zmax).foldl
    (fun gz zv =>
      (intRange xmin xmax).foldl
        (fun gx xv =>
          (intRange ymin ymax).foldl
            (fun gy yv => if pred zv xv yv then setVoxel gy zv xv yv else gy)
            gx)
        gz)
    g0

/-- Lower bound of the clipped bounding box on one axis:
`int(max(math.ceil(c - radius), 0))`. -/
def bboxLo (c r : ℚ) : Int := max ⌈c - r⌉ 0

/-- Upper bound of the clipped bounding box on one axis:
`int(min(math.floor(c + radius), patch_size - 1))`. -/
def bboxHi (c r : ℚ) (ps : Int) : Int := min ⌊c + r⌋ (ps - 1)

/-- Sphere containment test `(x-x0)**2 + (y-y0)**2 + (z-z0)**2 <= radius**2`. -/
def spherePred (x0 y0 z0 r : ℚ) (z x y : Int) : Bool :=
  decide (((x : ℚ) - x0) ^ 2 + ((y : ℚ) - y0) ^ 2 + ((z : ℚ) - z0) ^ 2 ≤ r ^ 2)

/-- Diamond containment test `abs(x-x0) + abs(y-y0) + abs(z-z0) <= radius`. -/
def diamondPred (x0 y0 z0 r : ℚ) (z x y : Int) : Bool :=
  decide (|(x : ℚ) - x0| + |(y : ℚ) - y0| + |(z : ℚ) - z0| ≤ r)

/-- Effective start of the Python slice `a[lo : _]` on an axis of length `s`
(negative indices count from the end, then the bound is clamped to `[0, s]`). -/
def pySliceLo (lo s : Int) : Int := if lo < 0 then max (lo + s) 0 else min lo s

/-- Effective stop of the Python slice `a[_ : hi]` on an axis of length `s`. -/
def pySliceHi (hi s : Int) : Int := if hi < 0 then max (hi + s) 0 else min hi s

/-- Membership of index `idx` in the Python slice `lo : hi` of an axis of
length `s`; this is the index set written by the cube branch's bulk assignment
`solid_figures[i, z_min:z_max+1, 0, x_min:x_max+1, y_min:y_max+1] = 1`. -/
def inPySlice (lo hi s idx : Int) : Prop :=
  pySliceLo lo s ≤ idx ∧ idx < pySliceHi hi s

instance (lo hi s idx : Int) : Decidable (inPySlice lo hi s idx) := by
  unfold inPySlice
  infer_instance

/-- One iteration of the per-sample loop of
`Geometric3DDataset.__generate_solid_figures`: rasterize one solid of the given
geometry type, center `(x0, y0, z0)` and radius into a fresh slab of resolution
`ps`.  An unknown geometry type raises `NotImplementedError` (`none`). -/
def generateSolidFigure (gtype : Nat) (x0 y0 z0 r : ℚ) (ps : Int) : Option Grid :=
  let xmin := bboxLo x0 r
  let ymin := bboxLo y0 r
  let zmin := bboxLo z0 r
  let xmax := bboxHi x0 r ps
  let ymax := bboxHi y0 r ps
  let zmax := bboxHi z0 r ps
  if gtype = 0 then
    some (genLoop (spherePred x0 y0 z0 r) zmin zmax xmin xmax ymin ymax emptyGrid)
  else if gtype = 1 then
    some (genLoop (diamondPred x0 y0 z0 r) zmin zmax xmin xmax ymin ymax emptyGrid)
  else if gtype = 2 then
    some (fun z x y =>
      decide (inPySlice zmin (zmax + 1) ps z ∧ inPySlice xmin (xmax + 1) ps x ∧
        inPySlice ymin (ymax + 1) ps y))
  else none

/-- The claim's clipped integer bounding box
`[max(ceil(c-r),0), min(floor(c+r),patch_size-1)]` per axis. -/
def inClippedBox (x0 y0 z0 r : ℚ) (ps : Int) (z x y : Int) : Prop :=
  bboxLo z0 r ≤ z ∧ z ≤ bboxHi z0 r ps ∧
  bboxLo x0 r ≤ x ∧ x ≤ bboxHi x0 r ps ∧
  bboxLo y0 r ≤ y ∧ y ≤ bboxHi y0 r ps

/-- The claim's per-type containment predicate (cube: no further test). -/
def containsPred (gtype : Nat) (x0 y0 z0 r : ℚ) (z x y : Int) : Prop :=
  if gtype = 0 then
    ((x : ℚ) - x0) ^ 2 + ((y : ℚ) - y0) ^ 2 + ((z : ℚ) - z0) ^ 2 ≤ r ^ 2
  else if gtype = 1 then
    |(x : ℚ) - x0| + |(y : ℚ) - y0| + |(z : ℚ) - z0| ≤ r
  else True

/-- Number of occupied voxels of a slab inside `[0, ps)³`. -/
def countOccupied (g : Grid) (ps : Nat) : Nat :=
  ((List.range ps).map (fun (z : Nat) =>
    ((List.range ps).map (fun (x : Nat) =>
      ((List.range ps).map (fun (y : Nat) =>
        if g (z : Int) (x : Int) (y : Int) then 1 else 0)).sum)).sum)).sum

theorem mem_intRange {lo hi a : Int} : a ∈ intRange lo hi ↔ lo ≤ a ∧ a ≤ hi := by
  unfold intRange
  simp only [List.mem_map, List.mem_range, Int.ofNat_eq_natCast]
  constructor
  · rintro ⟨i, hi', rfl⟩
    omega
  · intro h
    refine ⟨(a - lo).toNat, by omega, ?_⟩
    omega

theorem foldl_set_lookup {α : Type} (f : Grid → α → Grid)
    (mark : α → Int → Int → Int → Bool)
    (hf : ∀ (g : Grid) (a : α) (z x y : Int), f g a z x y = (g z x y || mark a z x y)) :
    ∀ (L : List α) (g : Grid) (z x y : Int),
      (L.foldl f g) z x y = (g z x y || L.any (fun a => mark a z x y)) := by
  intro L
  induction L with
  | nil => intro g z x y; simp
  | cons a t ih =>
      intro g z x y
      rw [List.foldl_cons, ih, hf]
      simp [Bool.or_assoc]

theorem if_set_lookup (pred : Int → Int → Int → Bool) (zv xv : Int) (g : Grid)
    (yv z' x' y' : Int) :
    (if pred zv xv yv then setVoxel g zv xv yv else g) z' x' y' =
      (g z' x' y' || (pred zv xv yv && decide (z' = zv ∧ x' = xv ∧ y' = yv))) := by
  by_cases hp : pred zv xv yv
  · by_cases hc : z' = zv ∧ x' = xv ∧ y' = yv <;> simp [hp, setVoxel, hc]
  · simp [hp]

theorem genLoop_lookup (pred : Int → Int → Int → Bool)
    (zmin zmax xmin xmax ymin ymax : Int) (g0 : Grid) (z x y : Int) :
    genLoop pred zmin zmax xmin xmax ymin ymax g0 z x y =
      (g0 z x y || (intRange zmin zmax).any (fun zv =>
        (intRange xmin xmax).any (fun xv =>
          (intRange ymin ymax).any (fun yv =>
            pred zv xv yv && decide (z = zv ∧ x = xv ∧ y = yv))))) := by
  have hinner : ∀ (zv xv : Int) (g : Grid) (z' x' y' : Int),
      ((intRange ymin ymax).foldl
        (fun gy yv => if pred zv xv yv then setVoxel gy zv xv yv else gy) g) z' x' y' =
        (g z' x' y' || (intRange ymin ymax).any (fun yv =>
          pred zv xv yv && decide (z' = zv ∧ x' = xv ∧ y' = yv))) :=
    fun zv xv =>
      foldl_set_lookup _ _ (fun g a z' x' y' => if_set_lookup pred zv xv g a z' x' y') _
  have hmid : ∀ (zv : Int) (g : Grid) (z' x' y' : Int),
      ((intRange xmin xmax).foldl
        (fun gx xv => (intRange ymin ymax).foldl
          (fun gy yv => if pred zv xv yv then setVoxel gy zv xv yv else gy) gx) g) z' x' y' =
        (g z' x' y' || (intRange xmin xmax).any (fun xv =>
          (intRange ymin ymax).any (fun yv =>
            pred zv xv yv && decide (z' = zv ∧ x' = xv ∧ y' = yv)))) :=
    fun zv =>
      foldl_set_lookup _ _ (fun g a z' x' y' => hinner zv a g z' x' y') _
  exact foldl_set_lookup _ _ (fun g a z' x' y' => hmid a g z' x' y') _ g0 z x y

theorem genLoop_spec (pred : Int → Int → Int → Bool)
    (zmin zmax xmin xmax ymin ymax : Int) (z x y : Int) :
    genLoop pred zmin zmax xmin xmax ymin ymax emptyGrid z x y = true ↔
      ((zmin ≤ z ∧ z ≤ zmax) ∧ (xmin ≤ x ∧ x ≤ xmax) ∧ (ymin ≤ y ∧ y ≤ ymax) ∧
        pred z x y = true) := by
  rw [genLoop_lookup]
  simp only [emptyGrid, Bool.false_or, List.any_eq_true, Bool.and_eq_true,
    decide_eq_true_eq, mem_intRange]
  constructor
  · rintro ⟨zv, hzv, xv, hxv, yv, hyv, hp, rfl, rfl, rfl⟩
    exact ⟨hzv, hxv, hyv, hp⟩
  · rintro ⟨hz, hx, hy, hp⟩
    exact ⟨z, hz, x, hx, y, hy, hp, rfl, rfl, rfl⟩

theorem eq_false_of_not_left {b : Bool} {P Q : Prop}
    (h : b = true ↔ P ∧ Q) (hp : ¬ P) : b = false := by
  rcases Bool.eq_false_or_eq_true b with hb | hb
  · exact absurd (h.mp hb).1 hp
  · exact hb

theorem inPySlice_iff {lo hi s idx : Int} (h0 : 0 ≤ lo) (h1 : lo ≤ s)
    (h2 : 0 ≤ hi + 1) (h3 : hi ≤ s - 1) :
    inPySlice lo (hi + 1) s idx ↔ (lo ≤ idx ∧ idx ≤ hi) := by
  unfold inPySlice pySliceLo pySliceHi
  rw [if_neg (by omega), if_neg (by omega)]
  omega

theorem bbox_bounds {c r : ℚ} {ps : Int} (hc0 : 0 ≤ c) (hc1 : c ≤ (ps : ℚ) - 1)
    (hr : 3 ≤ r) (hps : 8 ≤ ps) :
    0 ≤ bboxLo c r ∧ bboxLo c r ≤ ps ∧ 0 ≤ bboxHi c r ps + 1 ∧ bboxHi c r ps ≤ ps - 1 := by
  unfold bboxLo bboxHi
  have h1 : (⌈c - r⌉ : Int) ≤ ps - 1 := by
    calc ⌈c - r⌉ ≤ ⌈((ps - 1 : Int) : ℚ)⌉ := by
          apply Int.ceil_mono
          push_cast
          linarith
      _ = ps - 1 := Int.ceil_intCast _
  have h2 : (3 : Int) ≤ ⌊c + r⌋ := by
    apply Int.le_floor.mpr
    push_cast
    linarith
  exact ⟨by omega, by omega, by omega, by omega⟩

/-- C1: for every valid geometry type in {SPHERE = 0, DIAMOND = 1, CUBE = 2},
center, radius, and patch size (validity per the spec's data model: resolution
above 7, radius at least 3, center coordinates inside `[0, patch_size - 1]`,
as every center the synthesizer draws is), the rasterized single-sample grid
marks voxel `(z, x, y)` occupied iff it lies in the clipped integer bounding
box `[max(ceil(c-r),0), min(floor(c+r),patch_size-1)]` on each axis and
satisfies the type's containment predicate; in particular every voxel outside
the bounding box is unoccupied. -/
theorem rasterizer_occupies_iff_inbox_and_contained
    (gtype : Nat) (x0 y0 z0 r : ℚ) (ps : Int)
    (hg : gtype = 0 ∨ gtype = 1 ∨ gtype = 2)
    (hr : 3 ≤ r) (hps : 8 ≤ ps)
    (hx0 : 0 ≤ x0) (hx1 : x0 ≤ (ps : ℚ) - 1)
    (hy0 : 0 ≤ y0) (hy1 : y0 ≤ (ps : ℚ) - 1)
    (hz0 : 0 ≤ z0) (hz1 : z0 ≤ (ps : ℚ) - 1) :
    ∃ g, generateSolidFigure gtype x0 y0 z0 r ps = some g ∧
      (∀ z x y : Int, g z x y = true ↔
        (inClippedBox x0 y0 z0 r ps z x y ∧ containsPred gtype x0 y0 z0 r z x y)) ∧
      (∀ z x y : Int, ¬ inClippedBox x0 y0 z0 r ps z x y → g z x y = false) := by
  rcases hg with rfl | rfl | rfl
  · refine ⟨_, rfl, ?_⟩
    have hiff : ∀ z x y : Int,
        genLoop (spherePred x0 y0 z0 r) (bboxLo z0 r) (bboxHi z0 r ps)
          (bboxLo x0 r) (bboxHi x0 r ps) (bboxLo y0 r) (bboxHi y0 r ps)
          emptyGrid z x y = true ↔
          (inClippedBox x0 y0 z0 r ps z x y ∧ containsPred 0 x0 y0 z0 r z x y) := by
      intro z x y
      rw [genLoop_spec]
      simp only [spherePred, decide_eq_true_eq, inClippedBox, containsPred, if_pos rfl]
      tauto
    exact ⟨hiff, fun z x y hp => eq_false_of_not_left (hiff z x y) hp⟩
  · refine ⟨_, rfl, ?_⟩
    have hiff : ∀ z x y : Int,
        genLoop (diamondPred x0 y0 z0 r) (bboxLo z0 r) (bboxHi z0 r ps)
          (bboxLo x0 r) (bboxHi x0 r ps) (bboxLo y0 r) (bboxHi y0 r ps)
          emptyGrid z x y = true ↔
          (inClippedBox x0 y0 z0 r ps z x y ∧ containsPred 1 x0 y0 z0 r z x y) := by
      intro z x y
      rw [genLoop_spec]
      simp only [diamondPred, decide_eq_true_eq, inClippedBox, containsPred]
      norm_num
      tauto
    exact ⟨hiff, fun z x y hp => eq_false_of_not_left (hiff z x y) hp⟩
  · obtain ⟨hza, hzb, hzc, hzd⟩ := bbox_bounds hz0 hz1 hr hps
    obtain ⟨hxa, hxb, hxc, hxd⟩ := bbox_bounds hx0 hx1 hr hps
    obtain ⟨hya, hyb, hyc, hyd⟩ := bbox_bounds hy0 hy1 hr hps
    refine ⟨_, rfl, ?_⟩
    have hiff : ∀ z x y : Int,
        (decide (inPySlice (bboxLo z0 r) (bboxHi z0 r ps + 1) ps z ∧
          inPySlice (bboxLo x0 r) (bboxHi x0 r ps + 1) ps x ∧
          inPySlice (bboxLo y0 r) (bboxHi y0 r ps + 1) ps y)) = true ↔
          (inClippedBox x0 y0 z0 r ps z x y ∧ containsPred 2 x0 y0 z0 r z x y) := by
      intro z x y
      rw [decide_eq_true_eq, inPySlice_iff hza hzb hzc hzd,
        inPySlice_iff hxa hxb hxc hxd, inPySlice_iff hya hyb hyc hyd]
      simp only [inClippedBox, containsPred]
      norm_num
      tauto
    exact ⟨hiff, fun z x y hp => eq_false_of_not_left (hiff z x y) hp⟩

theorem rasterizer_occupies_iff_witness :
    ((0 : Nat) = 0 ∨ (0 : Nat) = 1 ∨ (0 : Nat) = 2) ∧
    ∃ g, generateSolidFigure 0 (7/2) (7/2) (7/2) 3 8 = some g ∧
      (∀ z x y : Int, g z x y = true ↔
        (inClippedBox (7/2) (7/2) (7/2) 3 8 z x y ∧
          containsPred 0 (7/2) (7/2) (7/2) 3 z x y)) ∧
      (∀ z x y : Int, ¬ inClippedBox (7/2) (7/2) (7/2) 3 8 z x y → g z x y = false) :=
  ⟨Or.inl rfl,
    rasterizer_occupies_iff_inbox_and_contained 0 (7/2) (7/2) (7/2) 3 8 (Or.inl rfl)
      (by norm_num) (by norm_num) (by norm_num) (by norm_num) (by norm_num)
      (by norm_num) (by norm_num) (by norm_num)⟩

/-- C8: rasterizing a CUBE with center `(7,7,7)`, radius 3 and patch size 16
occupies exactly the integer box `[4,10]³` — 343 voxels — and nothing else. -/
theorem cube_center7_radius3_patch16_exact_box :
    ∃ g, generateSolidFigure 2 7 7 7 3 16 = some g ∧
      (∀ z x y : Int, g z x y = true ↔
        (4 ≤ z ∧ z ≤ 10 ∧ 4 ≤ x ∧ x ≤ 10 ∧ 4 ≤ y ∧ y ≤ 10)) ∧
      countOccupied g 16 = 343 := by
  have hlo : bboxLo (7 : ℚ) 3 = 4 := by
    unfold bboxLo
    rw [show (7 : ℚ) - 3 = ((4 : Int) : ℚ) by norm_num, Int.ceil_intCast]
    omega
  have hhi : bboxHi (7 : ℚ) 3 16 = 10 := by
    unfold bboxHi
    rw [show (7 : ℚ) + 3 = ((10 : Int) : ℚ) by norm_num, Int.floor_intCast]
    omega
  have hfun : (fun (z x y : Int) =>
      decide (inPySlice (bboxLo (7 : ℚ) 3) (bboxHi (7 : ℚ) 3 16 + 1) 16 z ∧
        inPySlice (bboxLo (7 : ℚ) 3) (bboxHi (7 : ℚ) 3 16 + 1) 16 x ∧
        inPySlice (bboxLo (7 : ℚ) 3) (bboxHi (7 : ℚ) 3 16 + 1) 16 y)) =
      (fun (z x y : Int) =>
        decide ((4 ≤ z ∧ z ≤ 10) ∧ (4 ≤ x ∧ x ≤ 10) ∧ (4 ≤ y ∧ y ≤ 10))) := by
    funext z x y
    rw [decide_eq_decide, hlo, hhi]
    unfold inPySlice pySliceLo pySliceHi
    rw [if_neg (show ¬ ((4 : Int) < 0) by norm_num),
      if_neg (show ¬ ((10 : Int) + 1 < 0) by norm_num)]
    omega
  refine ⟨fun (z x y : Int) =>
      decide ((4 ≤ z ∧ z ≤ 10) ∧ (4 ≤ x ∧ x ≤ 10) ∧ (4 ≤ y ∧ y ≤ 10)), ?_, ?_, ?_⟩
  · exact congrArg some hfun
  · intro z x y
    show decide ((4 ≤ z ∧ z ≤ 10) ∧ (4 ≤ x ∧ x ≤ 10) ∧ (4 ≤ y ∧ y ≤ 10)) = true ↔ _
    rw [decide_eq_true_eq]
    tauto
  · decide

/-- Immutable configuration stored by `Geometric3DDataset.__init__`
(`batch_size`, `patch_size`, `task`, `centered`, plus the hard-coded
`num_labels = 3`). -/
structure Config where
  batchSize : Int
  patchSize : Int
  task : Int
  centered : Bool
  numLabels : Int

/-- Model of `Geometric3DDataset.__init__`: it raises `NotImplementedError`
precisely when `patch_size <= 7`, and otherwise stores the arguments
unchanged; `batch_size` is not validated. -/
def mkGeometric3DDataset (batchSize patchSize task : Int) (centered : Bool) :
    Option Config :=
  if patchSize ≤ 7 then none
  else some ⟨batchSize, patchSize, task, centered, 3⟩

/-- Per-sample radius `(self.patch_size/2 - 3) * np.random.rand() + 3`
(`patch_size/2` is Python 2 integer division), with the `rand()` draw passed
in as a parameter. -/
def figureRadius (cfg : Config) (rand : ℚ) : ℚ :=
  ((cfg.patchSize / 2 - 3 : Int) : ℚ) * rand + 3

/-- Center selection at the top of `__generate_solid_figures`: with `centered`
it is `((patch_size-1)/2,) * 3` (integer division); otherwise, for the
half-completion task, `x0` is that same midpoint while `(y0, z0)` are the two
uniform draws scaled by `patch_size - 1`; for the remaining tasks all three
coordinates are drawn that way. -/
def figureCenter (cfg : Config) (rand2 : ℚ × ℚ) (rand3 : ℚ × ℚ × ℚ) :
    ℚ × ℚ × ℚ :=
  if cfg.centered then
    ((((cfg.patchSize - 1) / 2 : Int) : ℚ), (((cfg.patchSize - 1) / 2 : Int) : ℚ),
      (((cfg.patchSize - 1) / 2 : Int) : ℚ))
  else if cfg.task = 2 then
    ((((cfg.patchSize - 1) / 2 : Int) : ℚ),
      rand2.1 * ((cfg.patchSize : ℚ) - 1), rand2.2 * ((cfg.patchSize : ℚ) - 1))
  else
    (rand3.1 * ((cfg.patchSize : ℚ) - 1), rand3.2.1 * ((cfg.patchSize : ℚ) - 1),
      rand3.2.2 * ((cfg.patchSize : ℚ) - 1))

/-- Model of `Geometric3DDataset.__generate_solid_figures`: one shared center
per call, then the per-sample loop over `xrange(self.batch_size)` (empty for a
non-positive batch size), each iteration drawing its own radius; a sample with
an unknown geometry type raises, aborting the whole batch. -/
def generateSolidFigures (cfg : Config) (types : Nat → Nat) (rand2 : ℚ × ℚ)
    (rand3 : ℚ × ℚ × ℚ) (rands : Nat → ℚ) : Option (List Grid) :=
  let c := figureCenter cfg rand2 rand3
  (List.range cfg.batchSize.toNat).mapM (fun i =>
    generateSolidFigure (types i) c.1 c.2.1 c.2.2 (figureRadius cfg (rands i))
      cfg.patchSize)

/-- Model of `Geometric3DDataset.__kinect_scan`.  Its docstring promises a
same-shape grid keeping only the lowest occupied `z` per `(x, y)` column, but
the loop body starts with `itertools.product(...)` while the module only
imports `numpy` and `math`: the first iteration of `for i in
xrange(self.batch_size)` raises `NameError: name 'itertools' is not defined`.
With a non-positive batch size the loop never runs and the freshly allocated
all-`False` array of the input's shape is returned. -/
def kinectScan (batchSize : Int) (solidFigures : List Grid) : Option (List Grid) :=
  if batchSize ≤ 0 then some (solidFigures.map (fun _ => emptyGrid))
  else none

/-- Model of `Geometric3DDataset.__one_hot`: writes `one_hot_matrix[i, label] = 1`
for each drawn label; a label outside `[0, num_labels)` would be an
out-of-bounds write (`IndexError`). -/
def oneHot (cfg : Config) (types : Nat → Nat) : Option (Nat → Nat → Bool) :=
  if (List.range cfg.batchSize.toNat).all (fun i => types i < cfg.numLabels.toNat) then
    some (fun i l => decide (i < cfg.batchSize.toNat) && decide (types i = l))
  else none

/-- Label half of the pair returned by `next_batch`: a one-hot boolean matrix
(classification) or a list of voxel slabs (completion tasks). -/
inductive BatchLabel where
  | oneHotMat : (Nat → Nat → Bool) → BatchLabel
  | gridList : List Grid → BatchLabel

/-- The data slice `temp[:, :, :, :patch_size/2, :]` of one sample: row
indices `[0, half)` of the full slab. -/
def sliceLowX (g : Grid) (half : Int) : Grid :=
  fun z x y => decide (0 ≤ x) && decide (x < half) && g z x y

/-- The label slice `temp[:, :, :, patch_size/2:, :]` of one sample,
reindexed from row 0 as numpy slicing does (`size = patch_size - half` rows). -/
def sliceHighX (g : Grid) (half size : Int) : Grid :=
  fun z x y => decide (0 ≤ x) && decide (x < size) && g z (x + half) y

/-- Concatenation of two slabs along the row axis at `half`. -/
def concatX (d l : Grid) (half : Int) : Grid :=
  fun z x y => if x < half then d z x y else l z (x - half) y

/-- Model of `Geometric3DDataset.next_batch`.  The three task branches mirror
the `if/elif/elif` chain; any other task value falls through the chain and the
trailing `return data, labels` raises `NameError` on the unbound locals
(`none`). -/
def nextBatch (cfg : Config) (types : Nat → Nat) (rand2 : ℚ × ℚ)
    (rand3 : ℚ × ℚ × ℚ) (rands : Nat → ℚ) : Option (List Grid × BatchLabel) :=
  if cfg.task = 0 then do
    let labels ← oneHot cfg types
    let data ← generateSolidFigures cfg types rand2 rand3 rands
    some (data, BatchLabel.oneHotMat labels)
  else if cfg.task = 1 then do
    let labels ← generateSolidFigures cfg (fun _ => 0) rand2 rand3 rands
    let data ← kinectScan cfg.batchSize labels
    some (data, BatchLabel.gridList labels)
  else if cfg.task = 2 then do
    let temp ← generateSolidFigures cfg (fun _ => 0) rand2 rand3 rands
    some (temp.map (fun g => sliceLowX g (cfg.patchSize / 2)),
      BatchLabel.gridList (temp.map (fun g =>
        sliceHighX g (cfg.patchSize / 2) (cfg.patchSize - cfg.patchSize / 2))))
  else none

/-- Concrete half-completion configuration used as a witness input. -/
def cfgHalf : Config := ⟨1, 8, 2, true, 3⟩

theorem split_reconstruct (g : Grid) (ps : Int) (z x y : Int)
    (h0 : 0 ≤ x) (h1 : x < ps) :
    concatX (sliceLowX g (ps / 2)) (sliceHighX g (ps / 2) (ps - ps / 2)) (ps / 2) z x y =
      g z x y := by
  unfold concatX sliceLowX sliceHighX
  by_cases hx : x < ps / 2
  · simp [hx, h0]
  · rw [if_neg hx]
    have e0 : (0 : Int) ≤ x - ps / 2 := by omega
    have e1 : x - ps / 2 < ps - ps / 2 := by omega
    have e2 : x - ps / 2 + ps / 2 = x := by omega
    simp [e0, e1, e2]

/-- C7 counterexample: the constructor accepts a non-positive `batch_size`
(here 0) as long as `patch_size > 7`, contradicting the claim that
construction also fails for non-positive batch sizes. -/
theorem constructor_accepts_nonpositive_batch :
    mkGeometric3DDataset 0 32 0 true = some ⟨0, 32, 0, true, 3⟩ := rfl

/-- C7 amended: construction fails exactly when `patch_size ≤ 7`
(`batch_size` is never validated), and on success the stored configuration
fields equal the arguments passed (with `num_labels` fixed to 3). -/
theorem constructor_rejects_iff_small_patch (b p t : Int) (c : Bool) :
    (p ≤ 7 → mkGeometric3DDataset b p t c = none) ∧
    (7 < p → mkGeometric3DDataset b p t c = some ⟨b, p, t, c, 3⟩) := by
  constructor
  · intro h
    simp [mkGeometric3DDataset, h]
  · intro h
    simp [mkGeometric3DDataset, show ¬ p ≤ 7 from by omega]

theorem constructor_rejects_iff_small_patch_witness :
    (7 < (8 : Int)) ∧ mkGeometric3DDataset 5 8 0 true = some ⟨5, 8, 0, true, 3⟩ :=
  ⟨by norm_num, (constructor_rejects_iff_small_patch 5 8 0 true).2 (by norm_num)⟩

/-- C2 (code bug): for every positive batch size the scan raises (the module
never imports `itertools`), so no first-hit grid is ever returned. -/
theorem kinect_scan_fails_for_positive_batch (batchSize : Int)
    (figs : List Grid) (h : 0 < batchSize) : kinectScan batchSize figs = none := by
  unfold kinectScan
  rw [if_neg (by omega)]

theorem kinect_scan_fails_witness :
    (0 < (1 : Int)) ∧ kinectScan 1 [emptyGrid] = none :=
  ⟨by norm_num, kinect_scan_fails_for_positive_batch 1 [emptyGrid] (by norm_num)⟩

/-- C10 (code bug): the scan cannot even be applied once for a positive batch
size, let alone composed with itself, so the idempotence equation
`scan (scan v) = scan v` never produces a value on either side. -/
theorem kinect_scan_not_composable (batchSize : Int) (figs : List Grid)
    (h : 0 < batchSize) :
    (kinectScan batchSize figs).bind (fun out => kinectScan batchSize out) = none ∧
    kinectScan batchSize figs = none := by
  unfold kinectScan
  rw [if_neg (by omega)]
  exact ⟨rfl, rfl⟩

theorem kinect_scan_not_composable_witness :
    (0 < (2 : Int)) ∧
    ((kinectScan 2 [emptyGrid, emptyGrid]).bind (fun out => kinectScan 2 out) = none ∧
      kinectScan 2 [emptyGrid, emptyGrid] = none) :=
  ⟨by norm_num, kinect_scan_not_composable 2 [emptyGrid, emptyGrid] (by norm_num)⟩

/-- C9: when the configured task is none of the three enumerated values, no
branch of `next_batch` produces anything and the call fails. -/
theorem next_batch_unknown_task_returns_none (cfg : Config) (types : Nat → Nat)
    (rand2 : ℚ × ℚ) (rand3 : ℚ × ℚ × ℚ) (rands : Nat → ℚ)
    (h0 : cfg.task ≠ 0) (h1 : cfg.task ≠ 1) (h2 : cfg.task ≠ 2) :
    nextBatch cfg types rand2 rand3 rands = none := by
  unfold nextBatch
  rw [if_neg h0, if_neg h1, if_neg h2]

theorem next_batch_unknown_task_witness :
    ((Config.mk 1 8 5 true 3).task ≠ 0 ∧ (Config.mk 1 8 5 true 3).task ≠ 1 ∧
      (Config.mk 1 8 5 true 3).task ≠ 2) ∧
    nextBatch (Config.mk 1 8 5 true 3) (fun _ => 0) (0, 0) (0, 0, 0) (fun _ => 0) = none :=
  ⟨⟨by decide, by decide, by decide⟩,
    next_batch_unknown_task_returns_none (Config.mk 1 8 5 true 3) (fun _ => 0)
      (0, 0) (0, 0, 0) (fun _ => 0) (by decide) (by decide) (by decide)⟩

/-- C3: for a half-completion batch, the returned pair is the row-axis split of
the rasterized full volumes at `patch_size/2` (data = rows `[0, half)`,
label = rows `[half, patch_size)`), and concatenating data and label along
that axis reconstructs each full volume exactly. -/
theorem half_completion_split_reconstructs (cfg : Config) (types : Nat → Nat)
    (rand2 : ℚ × ℚ) (rand3 : ℚ × ℚ × ℚ) (rands : Nat → ℚ)
    (data labs : List Grid)
    (htask : cfg.task = 2)
    (h : nextBatch cfg types rand2 rand3 rands = some (data, BatchLabel.gridList labs)) :
    ∃ temp, generateSolidFigures cfg (fun _ => 0) rand2 rand3 rands = some temp ∧
      data = temp.map (fun g => sliceLowX g (cfg.patchSize / 2)) ∧
      labs = temp.map (fun g =>
        sliceHighX g (cfg.patchSize / 2) (cfg.patchSize - cfg.patchSize / 2)) ∧
      ∀ (i : Nat) (z x y : Int), 0 ≤ x → x < cfg.patchSize →
        concatX (data.getD i emptyGrid) (labs.getD i emptyGrid) (cfg.patchSize / 2) z x y =
          (temp.getD i emptyGrid) z x y := by
  unfold nextBatch at h
  rw [htask, if_neg (by norm_num : ¬ ((2 : Int) = 0)),
    if_neg (by norm_num : ¬ ((2 : Int) = 1)), if_pos rfl] at h
  cases hgen : generateSolidFigures cfg (fun _ => 0) rand2 rand3 rands with
  | none =>
      rw [hgen] at h
      simp at h
  | some temp =>
      rw [hgen] at h
      have h2 := Option.some.inj h
      injection h2 with hd hl
      injection hl with hl
      subst hd
      subst hl
      refine ⟨temp, rfl, rfl, rfl, ?_⟩
      intro i z x y hx0 hx1
      rcases hti : temp[i]? with _ | t
      · have e1 : (temp.map (fun g => sliceLowX g (cfg.patchSize / 2))).getD i emptyGrid =
            emptyGrid := by
          rw [List.getD_eq_getElem?_getD, List.getElem?_map, hti]
          rfl
        have e2 : (temp.map (fun g =>
            sliceHighX g (cfg.patchSize / 2) (cfg.patchSize - cfg.patchSize / 2))).getD i
              emptyGrid = emptyGrid := by
          rw [List.getD_eq_getElem?_getD, List.getElem?_map, hti]
          rfl
        have e3 : temp.getD i emptyGrid = emptyGrid := by
          rw [List.getD_eq_getElem?_getD, hti]
          rfl
        rw [e1, e2, e3]
        unfold concatX emptyGrid
        by_cases hxx : x < cfg.patchSize / 2 <;> simp [hxx]
      · have e1 : (temp.map (fun g => sliceLowX g (cfg.patchSize / 2))).getD i emptyGrid =
            sliceLowX t (cfg.patchSize / 2) := by
          rw [List.getD_eq_getElem?_getD, List.getElem?_map, hti]
          rfl
        have e2 : (temp.map (fun g =>
            sliceHighX g (cfg.patchSize / 2) (cfg.patchSize - cfg.patchSize / 2))).getD i
              emptyGrid = sliceHighX t (cfg.patchSize / 2) (cfg.patchSize - cfg.patchSize / 2) := by
          rw [List.getD_eq_getElem?_getD, List.getElem?_map, hti]
          rfl
        have e3 : temp.getD i emptyGrid = t := by
          rw [List.getD_eq_getElem?_getD, hti]
          rfl
        rw [e1, e2, e3]
        exact split_reconstruct t cfg.patchSize z x y hx0 hx1

theorem half_completion_split_witness :
    cfgHalf.task = 2 ∧
    ∃ data labs temp,
      nextBatch cfgHalf (fun _ => 0) (0, 0) (0, 0, 0) (fun _ => 0) =
        some (data, BatchLabel.gridList labs) ∧
      generateSolidFigures cfgHalf (fun _ => 0) (0, 0) (0, 0, 0) (fun _ => 0) = some temp ∧
      concatX (data.getD 0 emptyGrid) (labs.getD 0 emptyGrid) (cfgHalf.patchSize / 2) 3 3 3 =
        (temp.getD 0 emptyGrid) 3 3 3 := by
  refine ⟨rfl, ?_⟩
  obtain ⟨temp, h1, h2, h3, h4⟩ :=
    half_completion_split_reconstructs cfgHalf (fun _ => 0) (0, 0) (0, 0, 0) (fun _ => 0)
      _ _ rfl rfl
  exact ⟨_, _, temp, rfl, h1, h4 0 3 3 3 (by norm_num) (by decide)⟩

/-- 5-D `BZCXY` boolean voxel tensor with explicit dimensions, as handled by
the `layer_utils` transforms (`val` indexed `(batch, depth, channel, row,
column)`; values outside the dimensions are irrelevant padding). -/
structure VG where
  batch : Nat
  depth : Nat
  chans : Nat
  rows : Nat
  cols : Nat
  val : Nat → Nat → Nat → Nat → Nat → Bool

/-- Logical OR (`.max`) over one `factor³` block of the input, the value of an
output voxel of `downscale_3d` after the 8-axis reshape and `max(axis=(2,5,7))`. -/
def blockAny (v : VG) (f : Nat) (b z c x y : Nat) : Bool :=
  (List.range f).any (fun i =>
    (List.range f).any (fun j =>
      (List.range f).any (fun k =>
        v.val b (z * f + i) c (x * f + j) (y * f + k))))

/-- Model of `layer_utils.downscale_3d`: the code reshapes to
`(B, Z/f, f, C, X/f, f, Y/f, f)` (Python 2 integer division) and takes
`max(axis=(2, 5, 7))`.  A factor of 0 raises `ZeroDivisionError`; otherwise
the reshape succeeds exactly when the total element count is preserved, i.e.
`B*(Z/f)*f*C*(X/f)*f*(Y/f)*f = B*Z*C*X*Y`, and then each output voxel is the
OR of its block. -/
def downscale_3d (v : VG) (factor : Nat) : Option VG :=
  if factor = 0 then none
  else if v.batch * (v.depth / factor) * factor * v.chans * (v.rows / factor) * factor *
      (v.cols / factor) * factor = v.batch * v.depth * v.chans * v.rows * v.cols then
    some ⟨v.batch, v.depth / factor, v.chans, v.rows / factor, v.cols / factor,
      fun b z c x y => blockAny v factor b z c x y⟩
  else none

/-- Occupied `(z, x, y)` coordinates of the 3-D slice `a[n, :, 0, :, :]`, in C
order. -/
def nonzeroList (v : VG) (n : Nat) : List (Nat × Nat × Nat) :=
  (List.range v.depth).flatMap (fun z =>
    (List.range v.rows).flatMap (fun x =>
      (List.range v.cols).filterMap (fun y =>
        if v.val n z 0 x y then some (z, x, y) else none)))

/-- Result of `numpy.nonzero` on that 3-D slice: a 3-tuple of coordinate
arrays, one per axis. -/
def nonzeroTuple (v : VG) (n : Nat) : List (List Nat) :=
  [(nonzeroList v n).map (fun p => p.1),
   (nonzeroList v n).map (fun p => p.2.1),
   (nonzeroList v n).map (fun p => p.2.2)]

/-- Exception-propagating `for n in xrange(...)` loop over sample indices. -/
def optFold {β : Type} (f : β → Nat → Option β) : List Nat → β → Option β
  | [], acc => some acc
  | n :: t, acc =>
      match f acc n with
      | none => none
      | some acc' => optFold f t acc'

/-- Application of the 3×3 rotation matrix to an `[x, y, z]` column vector. -/
def rotApply (m : Fin 3 → Fin 3 → ℚ) (p : ℚ × ℚ × ℚ) : ℚ × ℚ × ℚ :=
  (m 0 0 * p.1 + m 0 1 * p.2.1 + m 0 2 * p.2.2,
   m 1 0 * p.1 + m 1 1 * p.2.1 + m 1 2 * p.2.2,
   m 2 0 * p.1 + m 2 1 * p.2.1 + m 2 2 * p.2.2)

/-- Body of the per-sample loop of `layer_utils.rotate_3d`.  Its first line,
`nonzeros = numpy.nonzero(the_5d_input[n, :, 0, :, :])[[3, 4, 1]]`, indexes
the 3-tuple returned by `numpy.nonzero` with the list `[3, 4, 1]`, which
raises `TypeError` (tuple indices must be integers); moreover 3 and 4 are the
axis numbers of the 5-D array while `nonzero` was applied to its 3-D slice,
so those positions do not exist in the 3-tuple either way.  The step is
modelled as the failing lookup of positions 3, 4, 1; the remainder of the
loop (unreachable, kept for completeness) would rotate each occupied
coordinate, bounds-check it against axes 3, 4, 1, and write it into the fresh
all-empty output. -/
def rotWrite (v : VG) (m : Fin 3 → Fin 3 → ℚ) (n : Nat)
    (xs ys zs : List Nat) (w0 : Nat → Nat → Nat → Nat → Nat → Bool) :
    Nat → Nat → Nat → Nat → Nat → Bool :=
  (xs.zip (ys.zip zs)).foldl
    (fun w p =>
      let q := rotApply m ((p.1 : ℚ), (p.2.1 : ℚ), (p.2.2 : ℚ))
      if 0 ≤ q.1 ∧ q.1 < (v.rows : ℚ) ∧ 0 ≤ q.2.1 ∧ q.2.1 < (v.cols : ℚ) ∧
          0 ≤ q.2.2 ∧ q.2.2 < (v.depth : ℚ) then
        fun b z c x y =>
          if b = n ∧ z = (⌊q.2.2⌋).toNat ∧ c = 0 ∧ x = (⌊q.1⌋).toNat ∧
              y = (⌊q.2.1⌋).toNat then true
          else w b z c x y
      else w)
    w0

def rotateStep (v : VG) (m : Fin 3 → Fin 3 → ℚ) (acc : VG) (n : Nat) : Option VG :=
  match ([3, 4, 1] : List Nat).mapM (fun j => (nonzeroTuple v n).get? j) with
  | some [xs, ys, zs] => some { acc with val := rotWrite v m n xs ys zs acc.val }
  | _ => none

/-- Model of `layer_utils.rotate_3d`: a fresh zero output grid, then the
per-sample loop (whose body always raises, see `rotateStep`). -/
def rotate_3d (v : VG) (m : Fin 3 → Fin 3 → ℚ) : Option VG :=
  optFold (rotateStep v m) (List.range v.batch) { v with val := fun _ _ _ _ _ => false }

/-- The 3-D slice `the_5d_input[n, :, 0, :, :]` of one sample. -/
def sampleVal (v : VG) (n : Nat) : Nat → Nat → Nat → Bool :=
  fun z x y => v.val n z 0 x y

/-- Cyclic shift (`numpy.roll`) of one sample by `(kz, kx, ky)` on the three
spatial axes. -/
def rollSample (g : Nat → Nat → Nat → Bool) (dz dx dy : Nat) (kz kx ky : Int) :
    Nat → Nat → Nat → Bool :=
  fun z x y =>
    g ((((z : Int) - kz) % (dz : Int)).toNat) ((((x : Int) - kx) % (dx : Int)).toNat)
      ((((y : Int) - ky) % (dy : Int)).toNat)

/-- Body of the per-sample loop of `layer_utils.bounding_box_re_center_3d`.
`numpy.nonzero` on the 3-D slice returns a 3-tuple; the code computes `midZ`
from `nonzeros[1]` and then reads `nonzeros[3]` and `nonzeros[4]` — tuple
positions written for the 5-D array that are out of range for the 3-tuple
(`IndexError`); for an all-empty sample, `min()` of the empty index array
raises `ValueError` first.  Either way every iteration fails.  The rest of
the loop (unreachable, kept for completeness) would roll the sample so the
bounding-box midpoint moves to `mid = (shape[1]-1)/2` on every axis. -/
def recenterRoll (v : VG) (n : Nat) (mid midZ midX midY : Int) (acc : VG) : VG :=
  { acc with val := fun b z c x y =>
      if b = n ∧ c = 0 then
        (rollSample (sampleVal v n) v.depth v.rows v.cols (mid - midZ) (mid - midX)
          (mid - midY) z x y)
      else acc.val b z c x y }

def recenterStep (v : VG) (acc : VG) (n : Nat) : Option VG :=
  let nz := nonzeroTuple v n
  let mid : Int := ((v.depth : Int) - 1) / 2
  (nz.get? 1).bind (fun zsArr =>
    (zsArr.min?).bind (fun mnz =>
      (zsArr.max?).bind (fun mxz =>
        let midZ : Int := ((mnz : Int) + (mxz : Int)) / 2
        (nz.get? 3).bind (fun xsArr =>
          (xsArr.min?).bind (fun mnx =>
            (xsArr.max?).bind (fun mxx =>
              let midX : Int := ((mnx : Int) + (mxx : Int)) / 2
              (nz.get? 4).bind (fun ysArr =>
                (ysArr.min?).bind (fun mny =>
                  (ysArr.max?).bind (fun mxy =>
                    let midY : Int := ((mny : Int) + (mxy : Int)) / 2
                    some (recenterRoll v n mid midZ midX midY acc))))))))))

/-- Model of `layer_utils.bounding_box_re_center_3d`: a fresh zero output
grid, then the per-sample loop (whose body always raises, see
`recenterStep`). -/
def bounding_box_re_center_3d (v : VG) : Option VG :=
  optFold (recenterStep v) (List.range v.batch) { v with val := fun _ _ _ _ _ => false }

/-- Concrete all-occupied `1×2×1×2×2` input, witness for downscaling. -/
def vgFull : VG := ⟨1, 2, 1, 2, 2, fun _ _ _ _ _ => true⟩

/-- Degenerate input with a zero-length depth axis and row axis of length 1. -/
def vgDegenerate : VG := ⟨1, 0, 1, 1, 1, fun _ _ _ _ _ => false⟩

/-- Concrete one-voxel `1×8×1×8×8` input, witness for rotation/recentering. -/
def vgOneVoxel : VG :=
  ⟨1, 8, 1, 8, 8, fun _ z _ x y => decide (z = 3 ∧ x = 3 ∧ y = 3)⟩

/-- Identity rotation matrix. -/
def idMat : Fin 3 → Fin 3 → ℚ := fun i j => if i = j then 1 else 0

theorem shrink_lt {a f : Nat} (h : ¬ f ∣ a) : a / f * f < a := by
  rcases Nat.lt_or_ge (a / f * f) a with hlt | hge
  · exact hlt
  · exfalso
    have hle : a / f * f ≤ a := Nat.div_mul_le_self a f
    have he : a / f * f = a := le_antisymm hle hge
    have hmod := Nat.div_add_mod a f
    have he2 : f * (a / f) = a := by rw [Nat.mul_comm]; exact he
    exact h (Nat.dvd_of_mod_eq_zero (by omega))

theorem prod5_lt {B C d r c a b e : Nat} (hB : 0 < B) (hC : 0 < C)
    (hd : 0 < d) (hr : 0 < r) (hc : 0 < c)
    (h1 : a ≤ d) (h2 : b ≤ r) (h3 : e ≤ c) (hs : a < d ∨ b < r ∨ e < c) :
    B * a * C * b * e < B * d * C * r * c := by
  rcases hs with hs | hs | hs
  · calc B * a * C * b * e ≤ B * a * C * r * c := by gcongr
      _ < B * d * C * r * c := by gcongr
  · calc B * a * C * b * e ≤ B * d * C * b * c := by gcongr
      _ < B * d * C * r * c := by gcongr
  · calc B * a * C * b * e ≤ B * d * C * r * e := by gcongr
      _ < B * d * C * r * c := by gcongr

theorem optFold_first_none {β : Type} (f : β → Nat → Option β) (n : Nat)
    (t : List Nat) (acc : β) (h : f acc n = none) : optFold f (n :: t) acc = none := by
  unfold optFold
  rw [h]

/-- C4 counterexample: on a degenerate array with a zero-length spatial axis,
`downscale_3d` succeeds even though the row axis (length 1) is not divisible
by the factor 2 — the reshape preserves the total element count `0 = 0` — so
the claim's failure clause is false for that 5-D input. -/
theorem downscale_nondivisible_succeeds_on_degenerate :
    ¬ (2 ∣ vgDegenerate.rows) ∧ (downscale_3d vgDegenerate 2).isSome = true := by
  constructor
  · decide
  · rfl

theorem bind2_none {α β : Type} (xo yo : Option α) (f : α → α → Option β)
    (hf : ∀ a b, f a b = none) :
    xo.bind (fun a => yo.bind (fun b => f a b)) = none := by
  cases xo with
  | none => rfl
  | some a =>
      show yo.bind (fun b => f a b) = none
      cases yo with
      | none => rfl
      | some b =>
          show f a b = none
          exact hf a b

theorem rotateStep_none (v : VG) (m : Fin 3 → Fin 3 → ℚ) (acc : VG) (n : Nat) :
    rotateStep v m acc n = none := rfl

theorem recenterStep_none (v : VG) (acc : VG) (n : Nat) :
    recenterStep v acc n = none :=
  bind2_none _ _ _ (fun _ _ => rfl)

/-- C4 amended: for a positive factor, when the factor divides all three
spatial axis lengths the downscale succeeds, the spatial dimensions are each
divided by the factor (batch and channel axes unchanged), and every output
voxel is the logical OR of its `factor³` input block; when some spatial axis
length is not divisible and all five dimensions are positive, the call fails.
(A zero-sized array is the exception the counterexample exhibits: its reshape
preserves the total element count 0 and so succeeds.) -/
theorem downscale_blockmax_divisible_and_fails_nondivisible (v : VG) (f : Nat)
    (hf : 0 < f) :
    ((f ∣ v.depth ∧ f ∣ v.rows ∧ f ∣ v.cols) →
      ∃ w, downscale_3d v f = some w ∧ w.batch = v.batch ∧ w.chans = v.chans ∧
        w.depth = v.depth / f ∧ w.rows = v.rows / f ∧ w.cols = v.cols / f ∧
        ∀ b z c x y, w.val b z c x y = true ↔
          ∃ i, i < f ∧ ∃ j, j < f ∧ ∃ k, k < f ∧
            v.val b (z * f + i) c (x * f + j) (y * f + k) = true) ∧
    ((0 < v.batch ∧ 0 < v.depth ∧ 0 < v.chans ∧ 0 < v.rows ∧ 0 < v.cols) →
      ¬ (f ∣ v.depth ∧ f ∣ v.rows ∧ f ∣ v.cols) → downscale_3d v f = none) := by
  constructor
  · rintro ⟨hd, hr, hc⟩
    have e1 : v.depth / f * f = v.depth := Nat.div_mul_cancel hd
    have e2 : v.rows / f * f = v.rows := Nat.div_mul_cancel hr
    have e3 : v.cols / f * f = v.cols := Nat.div_mul_cancel hc
    have hsize : v.batch * (v.depth / f) * f * v.chans * (v.rows / f) * f *
        (v.cols / f) * f = v.batch * v.depth * v.chans * v.rows * v.cols := by
      rw [show v.batch * (v.depth / f) * f * v.chans * (v.rows / f) * f *
          (v.cols / f) * f =
          v.batch * (v.depth / f * f) * v.chans * (v.rows / f * f) * (v.cols / f * f)
          from by ring, e1, e2, e3]
    refine ⟨⟨v.batch, v.depth / f, v.chans, v.rows / f, v.cols / f,
      fun b z c x y => blockAny v f b z c x y⟩, ?_, rfl, rfl, rfl, rfl, rfl, ?_⟩
    · unfold downscale_3d
      rw [if_neg (by omega), if_pos hsize]
    · intro b z c x y
      simp only [blockAny, List.any_eq_true, List.mem_range]
  · rintro ⟨hB, hD, hC, hR, hCol⟩ hnd
    have hdisj : v.depth / f * f < v.depth ∨ v.rows / f * f < v.rows ∨
        v.cols / f * f < v.cols := by
      by_cases h1 : f ∣ v.depth
      · by_cases h2 : f ∣ v.rows
        · by_cases h3 : f ∣ v.cols
          · exact absurd ⟨h1, h2, h3⟩ hnd
          · exact Or.inr (Or.inr (shrink_lt h3))
        · exact Or.inr (Or.inl (shrink_lt h2))
      · exact Or.inl (shrink_lt h1)
    have hstrict : v.batch * (v.depth / f * f) * v.chans * (v.rows / f * f) *
        (v.cols / f * f) < v.batch * v.depth * v.chans * v.rows * v.cols :=
      prod5_lt hB hC hD hR hCol (Nat.div_mul_le_self _ _) (Nat.div_mul_le_self _ _)
        (Nat.div_mul_le_self _ _) hdisj
    have hne : ¬ (v.batch * (v.depth / f) * f * v.chans * (v.rows / f) * f *
        (v.cols / f) * f = v.batch * v.depth * v.chans * v.rows * v.cols) := by
      rw [show v.batch * (v.depth / f) * f * v.chans * (v.rows / f) * f *
          (v.cols / f) * f =
          v.batch * (v.depth / f * f) * v.chans * (v.rows / f * f) * (v.cols / f * f)
          from by ring]
      exact Nat.ne_of_lt hstrict
    unfold downscale_3d
    rw [if_neg (by omega), if_neg hne]

theorem downscale_blockmax_witness :
    (0 < 2) ∧ (2 ∣ vgFull.depth ∧ 2 ∣ vgFull.rows ∧ 2 ∣ vgFull.cols) ∧
    ∃ w, downscale_3d vgFull 2 = some w ∧ w.batch = vgFull.batch ∧
      w.chans = vgFull.chans ∧ w.depth = vgFull.depth / 2 ∧ w.rows = vgFull.rows / 2 ∧
      w.cols = vgFull.cols / 2 ∧
      ∀ b z c x y, w.val b z c x y = true ↔
        ∃ i, i < 2 ∧ ∃ j, j < 2 ∧ ∃ k, k < 2 ∧
          vgFull.val b (z * 2 + i) c (x * 2 + j) (y * 2 + k) = true :=
  ⟨by norm_num, by decide,
    (downscale_blockmax_divisible_and_fails_nondivisible vgFull 2 (by norm_num)).1
      (by decide)⟩

/-- C5 (code bug): for every input with at least one sample, `rotate_3d` fails
on that sample's first line — `numpy.nonzero(...)[[3, 4, 1]]` indexes the
3-tuple returned by `nonzero` with a list (`TypeError`; positions 3 and 4 do
not exist in a 3-tuple) — so no rotated grid is ever produced: the claimed
rotate-round-and-clip output is never returned. -/
theorem rotate3d_fails_for_positive_batch (v : VG) (m : Fin 3 → Fin 3 → ℚ)
    (h : 0 < v.batch) : rotate_3d v m = none := by
  obtain ⟨k, hk⟩ : ∃ k, v.batch = k + 1 := ⟨v.batch - 1, by omega⟩
  unfold rotate_3d
  rw [hk, List.range_succ_eq_map]
  exact optFold_first_none _ 0 _ _ (rotateStep_none v m _ 0)

theorem rotate3d_fails_witness :
    (0 < vgOneVoxel.batch) ∧ rotate_3d vgOneVoxel idMat = none :=
  ⟨by decide, rotate3d_fails_for_positive_batch vgOneVoxel idMat (by decide)⟩

/-- C6 (code bug): recentering fails for every input with at least one sample
— the loop body reads `nonzeros[3]` from the 3-tuple returned by
`numpy.nonzero` on the 3-D slice (`IndexError`; `min` of an empty index array
raises even earlier for an empty sample) — so `bounding_box_re_center_3d`
never returns, and in particular applying it twice cannot equal applying it
once: neither application produces a value. -/
theorem recenter_fails_for_positive_batch (v : VG) (h : 0 < v.batch) :
    bounding_box_re_center_3d v = none := by
  obtain ⟨k, hk⟩ : ∃ k, v.batch = k + 1 := ⟨v.batch - 1, by omega⟩
  unfold bounding_box_re_center_3d
  rw [hk, List.range_succ_eq_map]
  exact optFold_first_none _ 0 _ _ (recenterStep_none v _ 0)

theorem recenter_fails_witness :
    (0 < vgOneVoxel.batch) ∧ bounding_box_re_center_3d vgOneVoxel = none :=
  ⟨by decide, recenter_fails_for_positive_batch vgOneVoxel (by decide)⟩
